import Mathlib

set_option maxRecDepth 100000

/-!
Verification of the AgentFund protocol SDK against its specification.

Shallow embedding of the state-manipulating modules of the repository:

* `packages/sdk/src/streaming.ts` — class `StreamingPayments`
* the escrow module — class `EscrowManager`
* `packages/sdk/src/micropayments.ts` — class `Micropayments`
* the SDK entry point — class `AgentFund` (`createInvoice`)

Conventions of the embedding:

* Public keys (Solana `PublicKey`) are abstract `Nat` identifiers; equality
  of identifiers models `PublicKey.equals` / string comparison of keys.
* `Date` values are `Int` milliseconds since the epoch (`Date.getTime()`);
  each function that reads the clock takes the reading `nowMs` explicitly
  (spec §5: clock readings within one entry point are a single fixed value).
* Lamport amounts (`bigint`) are `Int`; TS `bigint` division truncates
  toward zero, i.e. `Int.tdiv`.  SOL amounts (`number`) are `ℚ`; the
  idealization from binary floating point to exact rationals affects no
  claim below (amounts are only compared, copied and summed).
* JS `Math.floor` on an integer-valued quotient is `Int.fdiv`.
* A method that can `throw` is embedded as a function returning
  `Option String × σ` (thrown message, store state after the call),
  translated statement by statement: a `throw` returns the state as
  mutated so far, so "check before mutate" is a provable property of the
  embedding, not an artifact of it.
* Map lookups that throw `"... not found"` touch no record; the per-record
  operations below therefore model the found case, acting on the record
  the call addresses.
-/

namespace AFP

/-! ## Streaming payments (`packages/sdk/src/streaming.ts`) -/

/-- Stream status, from `type StreamStatus` in streaming.ts. -/
inductive StreamStatus where
  | active
  | paused
  | cancelled
  | completed
  | drained
deriving DecidableEq

/-- Payment stream record, from `interface PaymentStream` in streaming.ts.
The `id`, `address` (PDA) and event-listener bookkeeping are omitted:
no claim mentions them. -/
structure PaymentStream where
  sender : Nat
  recipient : Nat
  totalAmount : Int
  withdrawnAmount : Int
  startTime : Int
  endTime : Int
  status : StreamStatus
  ratePerSecond : Int
  lastWithdrawalTime : Option Int := none
  isPaused : Bool
  pausedAt : Option Int := none
deriving DecidableEq

namespace StreamingPayments

/-- `StreamingPayments.createStream` (streaming.ts 201-238): the stream
record built for a fresh stream.  `startTime = now + startDelay·1000`,
`endTime = startTime + durationSeconds·1000`,
`ratePerSecond = totalAmount / durationSeconds` with `bigint` division
(truncation toward zero, `Int.tdiv`). -/
def createStream (senderPk recipientPk : Nat) (totalAmount : Int)
    (durationSeconds : Int) (startDelay : Int) (nowMs : Int) : PaymentStream :=
  let startTime := nowMs + startDelay * 1000
  let endTime := startTime + durationSeconds * 1000
  { sender := senderPk
    recipient := recipientPk
    totalAmount := totalAmount
    withdrawnAmount := 0
    startTime := startTime
    endTime := endTime
    status := StreamStatus.active
    ratePerSecond := totalAmount.tdiv durationSeconds
    isPaused := false }

/-- `StreamingPayments.getAvailableBalance` (streaming.ts 257-279):
returns 0 for a non-active or paused stream or before the start;
otherwise `rate · ⌊min(now − start, end − start) / 1000⌋ − withdrawn`
(`Math.floor` of the millisecond difference over 1000). -/
def getAvailableBalance (s : PaymentStream) (nowMs : Int) : Int :=
  if s.status ≠ StreamStatus.active then 0
  else if s.isPaused then 0
  else if nowMs < s.startTime then 0
  else
    let elapsedMs := min (nowMs - s.startTime) (s.endTime - s.startTime)
    let elapsedSeconds := elapsedMs.fdiv 1000
    s.ratePerSecond * elapsedSeconds - s.withdrawnAmount

/-- `StreamingPayments.withdraw` (streaming.ts 298-339), statement by
statement; both throws happen before the first mutation.  TS
`amount ? _ : _` treats `0n` as falsy, so a given amount of 0 behaves
like no amount.  Returns (thrown message, stream after the call,
withdrawn amount). -/
def withdraw (s : PaymentStream) (callerPk : Nat) (nowMs : Int)
    (amount : Option Int) : Option String × PaymentStream × Int :=
  if callerPk ≠ s.recipient then
    (some "Unauthorized: only recipient can withdraw", s, 0)
  else
    let available := getAvailableBalance s nowMs
    let withdrawAmount :=
      match amount with
      | none => available
      | some a => if a = 0 then available
                  else if a > available then available else a
    if withdrawAmount ≤ 0 then
      (some "No funds available for withdrawal", s, 0)
    else
      let s1 := { s with withdrawnAmount := s.withdrawnAmount + withdrawAmount,
                         lastWithdrawalTime := some nowMs }
      let s2 := if s1.withdrawnAmount ≥ s1.totalAmount
                then { s1 with status := StreamStatus.completed } else s1
      (none, s2, withdrawAmount)

/-- `StreamingPayments.pauseStream` (streaming.ts 358-374): only the
sender may pause; the only state test is the `isPaused` flag (the
`status` field is not consulted). -/
def pauseStream (s : PaymentStream) (callerPk : Nat) (nowMs : Int) :
    Option String × PaymentStream :=
  if callerPk ≠ s.sender then (some "Unauthorized: only sender can pause", s)
  else if s.isPaused then (some "Stream already paused", s)
  else (none, { s with isPaused := true, pausedAt := some nowMs,
                       status := StreamStatus.paused })

/-- `StreamingPayments.resumeStream` (streaming.ts 390-410): only the
sender may resume; `endTime` is shifted by the pause duration
(`pausedAt` is always set while paused; the `|| Date.now()` default is
`getD nowMs`), the stream becomes active. -/
def resumeStream (s : PaymentStream) (callerPk : Nat) (nowMs : Int) :
    Option String × PaymentStream :=
  if callerPk ≠ s.sender then (some "Unauthorized: only sender can resume", s)
  else if ¬ s.isPaused then (some "Stream is not paused", s)
  else
    let pauseDuration := nowMs - (s.pausedAt.getD nowMs)
    (none, { s with endTime := s.endTime + pauseDuration,
                    isPaused := false,
                    pausedAt := none,
                    status := StreamStatus.active })

/-- `StreamingPayments.cancelStream` (streaming.ts 431-462): only the
sender; refused on a cancelled or completed stream; refunds
`total − withdrawn − available` and marks the stream cancelled.
Returns (thrown message, stream after the call, refund amount). -/
def cancelStream (s : PaymentStream) (callerPk : Nat) (nowMs : Int) :
    Option String × PaymentStream × Int :=
  if callerPk ≠ s.sender then
    (some "Unauthorized: only sender can cancel", s, 0)
  else if s.status = StreamStatus.cancelled ∨ s.status = StreamStatus.completed then
    (some "Stream already terminated", s, 0)
  else
    let available := getAvailableBalance s nowMs
    let refundAmount := s.totalAmount - s.withdrawnAmount - available
    (none, { s with status := StreamStatus.cancelled }, refundAmount)

/-- Available-balance formula of the specification (spec.md §4.7),
written from the spec's words for comparison with
`getAvailableBalance`: 0 when paused or not active, 0 before
`start_time`, otherwise
`rate · (min(t, end_time) − start_time) − withdrawn_amount` with the
elapsed time measured in whole seconds (floor of the millisecond
difference over 1000). -/
def availableSpec (s : PaymentStream) (t : Int) : Int :=
  if s.isPaused ∨ s.status ≠ StreamStatus.active then 0
  else if t < s.startTime then 0
  else s.ratePerSecond * ((min t s.endTime - s.startTime).fdiv 1000)
         - s.withdrawnAmount

end StreamingPayments

export StreamingPayments (createStream getAvailableBalance withdraw
  pauseStream resumeStream cancelStream availableSpec)

/-- C1: for every payment stream and query time, the available balance
returned by `StreamingPayments.getAvailableBalance` equals the spec
formula: 0 if the stream is paused or its status is not active, 0 before
`start_time`, otherwise `rate · (min(t, end_time) − start_time) −
withdrawn_amount` with the elapsed time taken in whole seconds. -/
theorem getAvailableBalance_matches_spec (s : PaymentStream) (t : Int) :
    getAvailableBalance s t = availableSpec s t := by
  unfold StreamingPayments.getAvailableBalance StreamingPayments.availableSpec
  by_cases h1 : s.status = StreamStatus.active
  · by_cases h2 : s.isPaused
    · simp [h1, h2]
    · by_cases h3 : t < s.startTime
      · simp [h1, h2, h3]
      · simp only [h1, h2, h3, ne_eq, not_true_eq_false, if_false,
          Bool.false_eq_true, or_self, if_neg, not_false_eq_true]
        rw [min_sub_sub_right t s.endTime s.startTime]
  · simp [h1]

/-- Stream used for claims C2 and C3's concrete scenarios is built by
`createStream`; the claims instantiate it below. -/
def c2stream : PaymentStream := createStream 1 2 10 3 0 0

/-- C2 (counterexample): a stream of `total_amount = 10` over 3 seconds
has `rate = ⌊10/3⌋ = 3`.  The recipient withdraws everything available
at the stream's very end (`t = 3000 ms`) and receives 9; the remainder
`10 mod 3 = 1` is NOT absorbed: far later (`t = 1 000 000 ms`) the
available balance is 0 and a further withdrawal throws, so the
cumulative amount withdrawn stays permanently at `9 ≠ 10 = total`. -/
theorem stream_remainder_counter :
    (withdraw c2stream 2 3000 none).1 = none ∧
    (withdraw c2stream 2 3000 none).2.2 = 9 ∧
    (withdraw c2stream 2 3000 none).2.1.withdrawnAmount = 9 ∧
    c2stream.totalAmount = 10 ∧
    getAvailableBalance ((withdraw c2stream 2 3000 none).2.1) 1000000 = 0 ∧
    (withdraw ((withdraw c2stream 2 3000 none).2.1) 2 1000000 none).1
      = some "No funds available for withdrawal" := by decide

/-- Helper for claim C2: under the structural facts of a created stream
(non-negative rate, start before end), the available balance never
exceeds `rate · ⌊(end − start)/1000⌋ − withdrawn`, provided the
withdrawn amount is itself below that cap. -/
theorem getAvailableBalance_le_cap (s : PaymentStream) (t : Int)
    (hrate : 0 ≤ s.ratePerSecond)
    (hw : s.withdrawnAmount ≤ s.ratePerSecond * ((s.endTime - s.startTime).fdiv 1000)) :
    getAvailableBalance s t
      ≤ s.ratePerSecond * ((s.endTime - s.startTime).fdiv 1000)
          - s.withdrawnAmount := by
  unfold StreamingPayments.getAvailableBalance
  split_ifs with h1 h2 h3
  · omega
  · omega
  · omega
  · dsimp only
    have hmin : min (t - s.startTime) (s.endTime - s.startTime)
        ≤ s.endTime - s.startTime := min_le_right _ _
    have hfd : (min (t - s.startTime) (s.endTime - s.startTime)).fdiv 1000
        ≤ (s.endTime - s.startTime).fdiv 1000 := by
      rw [Int.fdiv_eq_ediv _ (by norm_num : (0:Int) ≤ 1000),
          Int.fdiv_eq_ediv _ (by norm_num : (0:Int) ≤ 1000)]
      exact Int.ediv_le_ediv (by norm_num) hmin
    have hmul := mul_le_mul_of_nonneg_left hfd hrate
    omega

/-- C2 (amended): the division remainder is never absorbed.  Any single
successful or failing `withdraw` leaves the cumulative withdrawn amount
bounded by `rate · ⌊(end − start)/1000⌋` (so, by induction over a
stream's life, every unpaused stream's withdrawals top out there), and
for a stream built by `createStream` that bound equals
`total_amount − total_amount mod duration` — short of `total_amount` by
exactly the remainder. -/
theorem stream_withdraw_cap :
    (∀ (s : PaymentStream) (c : Nat) (t : Int) (a : Option Int),
      0 ≤ s.ratePerSecond →
      s.startTime ≤ s.endTime →
      s.withdrawnAmount ≤ s.ratePerSecond * ((s.endTime - s.startTime).fdiv 1000) →
      (withdraw s c t a).2.1.withdrawnAmount
        ≤ s.ratePerSecond * ((s.endTime - s.startTime).fdiv 1000)) ∧
    (∀ (sPk rPk : Nat) (total dur delay nowC : Int), 0 < dur → 0 ≤ total →
      (createStream sPk rPk total dur delay nowC).ratePerSecond *
        (((createStream sPk rPk total dur delay nowC).endTime
          - (createStream sPk rPk total dur delay nowC).startTime).fdiv 1000)
        = total - total.tmod dur) := by
  constructor
  · intro s c t a hrate hse hw
    have hcap := getAvailableBalance_le_cap s t hrate hw
    cases a with
    | none =>
      dsimp only [StreamingPayments.withdraw]
      split_ifs <;> dsimp only <;> omega
    | some x =>
      dsimp only [StreamingPayments.withdraw]
      split_ifs <;> dsimp only <;> omega
  · intro sPk rPk total dur delay nowC hdur htot
    unfold StreamingPayments.createStream
    simp only
    have hends : (nowC + delay * 1000 + dur * 1000) - (nowC + delay * 1000)
        = dur * 1000 := by ring
    rw [hends]
    have hfd : (dur * 1000).fdiv 1000 = dur := by
      rw [Int.fdiv_eq_ediv _ (by norm_num : (0:Int) ≤ 1000)]
      exact Int.mul_ediv_cancel dur (by norm_num)
    rw [hfd]
    have htd : total.tdiv dur = total / dur :=
      Int.tdiv_eq_ediv htot (le_of_lt hdur)
    have htm : total.tmod dur = total % dur := by
      have h1 : total.tmod dur = total - dur * total.tdiv dur := by
        have := Int.tmod_add_tdiv total dur
        omega
      have h2 : total % dur = total - dur * (total / dur) := by
        have := Int.ediv_add_emod total dur
        omega
      rw [h1, h2, htd]
    rw [htd, htm]
    have hcomm : total / dur * dur = dur * (total / dur) := by ring
    have := Int.ediv_add_emod total dur
    omega

/-- C2 (witness for `stream_withdraw_cap`): the per-step cap applied at
the concrete scenario of `c2stream` (rate 3 over 3 seconds, so the cap
is 9 < 10 = total), and the remainder identity at those parameters. -/
theorem stream_withdraw_cap_witness :
    (withdraw c2stream 2 3000 none).2.1.withdrawnAmount
      ≤ c2stream.ratePerSecond * ((c2stream.endTime - c2stream.startTime).fdiv 1000) ∧
    (createStream 1 2 10 3 0 0).ratePerSecond *
      (((createStream 1 2 10 3 0 0).endTime
        - (createStream 1 2 10 3 0 0).startTime).fdiv 1000)
      = 10 - Int.tmod 10 3 :=
  ⟨stream_withdraw_cap.1 c2stream 2 3000 none (by decide) (by decide) (by decide),
   stream_withdraw_cap.2 1 2 10 3 0 0 (by decide) (by decide)⟩

/-- Stream for claim C3's concrete scenario: 1000 lamports over 10
seconds (rate 100), sender 1, recipient 2, start `t = 0`. -/
def c3stream : PaymentStream := createStream 1 2 1000 10 0 0

/-- C3: evaluation at the failing input.  The sender cancels `c3stream`
halfway (`t = 5000 ms`, accrued available = 500, nothing withdrawn): the
refund is `1000 − 0 − 500 = 500` as documented, but the stream is marked
`cancelled`, after which `getAvailableBalance` returns 0 and the
recipient's follow-up withdraw throws — the accrued 500 lamports are NOT
claimable, contradicting the source's own doc comment ("Already-accrued
(but un-withdrawn) funds remain claimable by the recipient") and the
spec. -/
theorem cancel_strands_accrued_funds :
    (cancelStream c3stream 1 5000).1 = none ∧
    (cancelStream c3stream 1 5000).2.2 = 500 ∧
    (cancelStream c3stream 1 5000).2.1.status = StreamStatus.cancelled ∧
    getAvailableBalance ((cancelStream c3stream 1 5000).2.1) 6000 = 0 ∧
    (withdraw ((cancelStream c3stream 1 5000).2.1) 2 6000 none).1
      = some "No funds available for withdrawal" := by decide

/-- Initial stream of claim C9's scenario: 10 lamports over 10 seconds
(rate 1), sender 1, recipient 2, start `t = 0`. -/
def c9s0 : PaymentStream := createStream 1 2 10 10 0 0

/-- First step of C9's scenario: full withdrawal at the end of the
stream (`t = 10 000 ms`). -/
def c9w1 : Option String × PaymentStream × Int := withdraw c9s0 2 10000 none

/-- Stream after C9's first withdrawal (withdrawn = total = 10). -/
def c9s1 : PaymentStream := c9w1.2.1

/-- C9's scenario: the sender pauses the completed stream at
`t = 10 000 ms` (pauseStream checks only the `isPaused` flag, not the
status). -/
def c9p : Option String × PaymentStream := pauseStream c9s1 1 10000

/-- C9's scenario: the sender resumes at `t = 110 000 ms`, which shifts
`endTime` by the 100-second pause and re-activates the stream. -/
def c9r : Option String × PaymentStream := resumeStream c9p.2 1 110000

/-- Final step of C9's scenario: the recipient withdraws again at
`t = 110 000 ms`. -/
def c9w2 : Option String × PaymentStream × Int := withdraw c9r.2 2 110000 none

/-- C9: evaluation at the failing input.  After a withdraw brings
`withdrawnAmount` to `totalAmount` the status does become `completed`
(first conjuncts), but "from that point on" fails: pause (which ignores
the status) followed by resume re-activates the stream and extends
`endTime`, the elapsed-time accrual is not reduced by the pause, and a
further withdraw succeeds, driving `withdrawnAmount` to 110 on a stream
whose `totalAmount` is 10 — contradicting the source's own documentation
("While paused, no additional funds accrue to the recipient") and the
spec's `withdrawn ≤ total`. -/
theorem pause_resume_breaks_total_cap :
    c9w1.1 = none ∧
    c9s1.withdrawnAmount = 10 ∧
    c9s1.totalAmount = 10 ∧
    c9s1.status = StreamStatus.completed ∧
    c9p.1 = none ∧
    c9r.1 = none ∧
    c9r.2.status = StreamStatus.active ∧
    c9w2.1 = none ∧
    c9w2.2.1.withdrawnAmount = 110 ∧
    c9w2.2.1.totalAmount < c9w2.2.1.withdrawnAmount := by decide

/-! ## Escrow (class `EscrowManager`) -/

/-- Escrow status, from `type EscrowStatus` in the escrow module. -/
inductive EscrowStatus where
  | pending
  | funded
  | released
  | refunded
  | disputed
  | expired
deriving DecidableEq

/-- Condition kind, from `EscrowCondition.type`. -/
inductive CondType where
  | time
  | signature
  | oracle
  | custom
deriving DecidableEq

/-- Escrow release condition, from `interface EscrowCondition`.  The
dynamic `params` record is represented by the one field the source ever
reads: `params.after` (timestamp consulted by time conditions); the
other kinds ignore their params entirely. -/
structure EscrowCondition where
  type : CondType
  afterMs : Int
deriving DecidableEq

/-- Escrow record, from `interface Escrow`.  The `id`, `token` and
`description` fields are omitted (no claim or branch depends on them);
`amount` (a SOL `number`) is `ℚ`. -/
structure Escrow where
  depositor : Nat
  beneficiary : Nat
  arbiter : Option Nat
  amount : ℚ
  conditions : List EscrowCondition
  status : EscrowStatus
  createdAt : Int
  expiresAt : Option Int := none
deriving DecidableEq

/-- Dispute resolution argument of `EscrowManager.resolveDispute`
(`'release' | 'refund' | 'split'`). -/
inductive Resolution where
  | release
  | refund
  | split
deriving DecidableEq

namespace EscrowManager

/-- `EscrowManager.fund`: requires status `pending`, marks the escrow
`funded`. -/
def fund (e : Escrow) : Option String × Escrow :=
  if e.status ≠ EscrowStatus.pending then (some "Escrow is not pending", e)
  else (none, { e with status := EscrowStatus.funded })

/-- `EscrowManager.release`: requires status `funded` and the signer to
be the depositor or the designated arbiter
(`signer.equals(depositor) || (arbiter && signer.equals(arbiter))`),
then marks the escrow `released`.  The conditions list is never read. -/
def release (e : Escrow) (signer : Nat) : Option String × Escrow :=
  if e.status ≠ EscrowStatus.funded then (some "Escrow is not funded", e)
  else if ¬ (signer = e.depositor ∨ e.arbiter = some signer) then
    (some "Unauthorized to release escrow", e)
  else (none, { e with status := EscrowStatus.released })

/-- `EscrowManager.refund`: requires status `funded` and the signer to
be the beneficiary or the arbiter, then marks the escrow `refunded`. -/
def refund (e : Escrow) (signer : Nat) : Option String × Escrow :=
  if e.status ≠ EscrowStatus.funded then (some "Escrow is not funded", e)
  else if ¬ (signer = e.beneficiary ∨ e.arbiter = some signer) then
    (some "Unauthorized to refund escrow", e)
  else (none, { e with status := EscrowStatus.refunded })

/-- `EscrowManager.dispute`: requires status `funded`, an arbiter, and
the signer to be the depositor or the beneficiary, then marks the
escrow `disputed`.  The function never reads a clock: there is no
dispute-window test of any kind. -/
def dispute (e : Escrow) (signer : Nat) : Option String × Escrow :=
  if e.status ≠ EscrowStatus.funded then (some "Escrow is not funded", e)
  else if e.arbiter = none then (some "Escrow has no arbiter for disputes", e)
  else if ¬ (signer = e.depositor ∨ signer = e.beneficiary) then
    (some "Unauthorized to dispute escrow", e)
  else (none, { e with status := EscrowStatus.disputed })

/-- `EscrowManager.resolveDispute`: requires status `disputed` and the
signer to equal the designated arbiter
(`!escrow.arbiter || !arbiter.equals(escrow.arbiter)` throws, i.e. the
stored arbiter must be `some signer`).  The `splitFrac` argument (the
source's `splitRatio`) is accepted but never read, and the status is
set to `released` for a `release` resolution and to `refunded`
otherwise — a `split` resolution updates no balances: the source defers
payout with "In production: execute the resolution on-chain". -/
def resolveDispute (e : Escrow) (signer : Nat) (resolution : Resolution)
    (splitFrac : Option ℚ) : Option String × Escrow :=
  if e.status ≠ EscrowStatus.disputed then (some "Escrow is not in dispute", e)
  else if ¬ (e.arbiter = some signer) then
    (some "Only arbiter can resolve disputes", e)
  else
    (none, { e with status := if resolution = Resolution.release
                              then EscrowStatus.released
                              else EscrowStatus.refunded })

/-- Evaluation of one condition by `EscrowManager.checkConditions`:
time conditions are met when `now ≥ params.after`; signature, oracle
and custom conditions are always unmet in the source ("would check
on-chain in production"). -/
def checkMet (nowMs : Int) (c : EscrowCondition) : Bool :=
  match c.type with
  | CondType.time => decide (c.afterMs ≤ nowMs)
  | CondType.signature => false
  | CondType.oracle => false
  | CondType.custom => false

/-- `EscrowManager.checkConditions`: evaluates every condition against
the clock and reports `(allMet, per-condition results)`, where `allMet`
is true when the list is empty or every condition is met.  It mutates
nothing, and no other operation calls it. -/
def checkConditions (e : Escrow) (nowMs : Int) :
    Bool × List (EscrowCondition × Bool) :=
  let results := e.conditions.map (fun c => (c, checkMet nowMs c))
  (results.isEmpty || results.all (fun r => r.2), results)

end EscrowManager

export EscrowManager (fund release refund dispute resolveDispute
  checkMet checkConditions)

/-- Disputed escrow of claim C4's failing input: depositor 1,
beneficiary 2, arbiter 3, amount 100, already disputed. -/
def c4escrow : Escrow :=
  { depositor := 1
    beneficiary := 2
    arbiter := some 3
    amount := 100
    conditions := []
    status := EscrowStatus.disputed
    createdAt := 0 }

/-- C4: evaluation at the failing input.  Resolving the dispute on
`c4escrow` with `split` and a fraction of 1/2 pays nothing to anyone:
the call's entire effect is to set the status to `refunded`, and the
result does not depend on the fraction (1/2 and 3/10 give identical
results) — the `splitRatio` parameter is dead.  The claim's payouts
`floor(100·r)` to the beneficiary and the remainder to the depositor
are computed nowhere. -/
theorem split_resolution_pays_nothing :
    resolveDispute c4escrow 3 Resolution.split (some (1/2 : ℚ))
      = (none, { c4escrow with status := EscrowStatus.refunded }) ∧
    resolveDispute c4escrow 3 Resolution.split (some (3/10 : ℚ))
      = resolveDispute c4escrow 3 Resolution.split (some (1/2 : ℚ)) := by
  decide

/-- Funded escrow of claim C6's scenario: created at `t = 0`,
depositor 1, beneficiary 2, arbiter 3. -/
def c6escrow : Escrow :=
  { depositor := 1
    beneficiary := 2
    arbiter := some 3
    amount := 100
    conditions := []
    status := EscrowStatus.funded
    createdAt := 0 }

/-- C6 (counterexample): `EscrowManager.dispute` never reads a clock, so
this call equally models a dispute attempted 86 401 seconds after
`c6escrow.createdAt = 0` — one second past the claimed
`DISPUTE_WINDOW = 86 400`.  It succeeds (no `WindowExpired`) and marks
the escrow disputed, refuting the claim. -/
theorem dispute_after_window_succeeds :
    (86401000 : Int) - c6escrow.createdAt > 86400 * 1000 ∧
    dispute c6escrow 1
      = (none, { c6escrow with status := EscrowStatus.disputed }) := by decide

/-- C6 (amended): `EscrowManager.dispute` enforces no dispute window at
all.  For every funded escrow with an arbiter, a dispute by the
depositor or the beneficiary succeeds and marks the escrow disputed, no
matter how much time has passed since `createdAt` — the function takes
no clock reading, so its result is the same at every instant.  (Failing
calls leave the escrow unchanged; see the error-handling theorem.) -/
theorem dispute_has_no_window_check :
    ∀ (e : Escrow) (signer : Nat),
      e.status = EscrowStatus.funded →
      e.arbiter.isSome →
      (signer = e.depositor ∨ signer = e.beneficiary) →
      dispute e signer = (none, { e with status := EscrowStatus.disputed }) := by
  intro e signer h1 h2 h3
  unfold EscrowManager.dispute
  have h1' : ¬ e.status ≠ EscrowStatus.funded := by simp [h1]
  have h2' : ¬ e.arbiter = none := by
    cases ha : e.arbiter with
    | none => rw [ha] at h2; simp at h2
    | some a => simp
  rw [if_neg h1', if_neg h2', if_neg (by simp [h3])]

/-- C6 (witness): `dispute_has_no_window_check` applied to `c6escrow`
with the beneficiary as the initiating party. -/
theorem dispute_has_no_window_check_witness :
    dispute c6escrow 2
      = (none, { c6escrow with status := EscrowStatus.disputed }) :=
  dispute_has_no_window_check c6escrow 2 (by decide) (by decide) (by decide)

/-- C10: releasing a funded escrow never evaluates its conditions.
First conjunct: for every escrow in status `funded` — whatever its
conditions list, met or unmet — `release` by the depositor or the
designated arbiter succeeds and only flips the status to `released`.
Second conjunct: the outcome of `release` is wholly independent of the
conditions list.  `checkConditions` (the only code that evaluates
conditions) is a pure read returning `(allMet, results)` and no
operation consults it. -/
theorem release_ignores_conditions :
    (∀ (e : Escrow) (signer : Nat),
      e.status = EscrowStatus.funded →
      (signer = e.depositor ∨ e.arbiter = some signer) →
      release e signer = (none, { e with status := EscrowStatus.released })) ∧
    (∀ (e : Escrow) (signer : Nat) (cs : List EscrowCondition),
      (release { e with conditions := cs } signer).1 = (release e signer).1) := by
  constructor
  · intro e signer h1 h2
    unfold EscrowManager.release
    have h1' : ¬ e.status ≠ EscrowStatus.funded := by simp [h1]
    rw [if_neg h1', if_neg (by simp [h2])]
  · intro e signer cs
    unfold EscrowManager.release
    split_ifs <;> simp_all

/-- Funded escrow of claim C10's witness, carrying one signature
condition — which `checkConditions` reports as unmet. -/
def c10escrow : Escrow :=
  { depositor := 1
    beneficiary := 2
    arbiter := some 3
    amount := 50
    conditions := [{ type := CondType.signature, afterMs := 0 }]
    status := EscrowStatus.funded
    createdAt := 0 }

/-- C10 (witness): on `c10escrow`, `checkConditions` says the (single,
signature) condition is unmet, yet `release` by the depositor succeeds
— by `release_ignores_conditions` applied at that concrete escrow. -/
theorem release_ignores_conditions_witness :
    (checkConditions c10escrow 999999).1 = false ∧
    release c10escrow 1
      = (none, { c10escrow with status := EscrowStatus.released }) :=
  ⟨by decide,
   release_ignores_conditions.1 c10escrow 1 (by decide) (by decide)⟩

/-! ## Micropayments (`packages/sdk/src/micropayments.ts`, types from
`packages/sdk/src/types.ts`) -/

/-- Invoice status, from `enum PaymentStatus` in types.ts. -/
inductive PaymentStatus where
  | pending
  | received
  | settled
  | expired
  | failed
deriving DecidableEq

/-- Invoice record, from `interface Invoice` in types.ts.  The optional
`token` mint and `paidAt` are omitted (no claim depends on them);
`amount` (a SOL `number`) is `ℚ`. -/
structure Invoice where
  id : String
  recipient : Nat
  amount : ℚ
  memo : Option String
  expiresAt : Int
  status : PaymentStatus
  createdAt : Int
deriving DecidableEq

/-- Batch-settlement status.  The interface in types.ts declares
`'pending' | 'processing' | 'completed' | 'failed'`, but
`settlePending` assigns the (untyped) literal `'settled'`; the
embedding includes it as a constructor. -/
inductive SettleStatus where
  | pending
  | processing
  | completed
  | failed
  | settled
deriving DecidableEq

/-- Batch settlement record, from `interface BatchSettlement` in
types.ts (`txSignature` omitted; no claim depends on it). -/
structure BatchSettlement where
  id : String
  invoices : List String
  totalAmount : ℚ
  status : SettleStatus
  scheduledAt : Int
  settledAt : Option Int := none
deriving DecidableEq

/-- Mutable state of a `Micropayments` instance: the `pendingInvoices`
map (a JS `Map`, embedded as an insertion-ordered association list) and
the `settlementHistory` array.  The `receivedPayments` map is omitted
(only `checkPayment`/`recordPayment` touch it and no claim covers
them). -/
structure MicroState where
  pendingInvoices : List (String × Invoice)
  settlementHistory : List BatchSettlement
deriving DecidableEq

namespace Micropayments

/-- JS `Map.set` on the association list: replace in place when the key
is present, append otherwise. -/
def mapSet (m : List (String × Invoice)) (k : String) (v : Invoice) :
    List (String × Invoice) :=
  if m.any (fun p => decide (p.1 = k)) then
    m.map (fun p => if p.1 = k then (k, v) else p)
  else m ++ [(k, v)]

/-- `Micropayments.registerInvoice`: `pendingInvoices.set(id, invoice)`. -/
def registerInvoice (st : MicroState) (inv : Invoice) : MicroState :=
  { st with pendingInvoices := mapSet st.pendingInvoices inv.id inv }

/-- `Micropayments.settlePending` (micropayments.ts 111-151), statement
by statement.  The first loop collects the ids and the running total of
the invoices whose status is `received`; the throw (`'No pending
payments to settle'`) happens before any mutation; on the success path
the collected invoices are marked `settled`, the settlement record is
marked settled and appended to the history.  `nowMs` stands for
`Date.now()` (also used for the `batch_` id).  Returns (thrown message,
state after the call, returned settlement). -/
def settlePending (st : MicroState) (nowMs : Int) :
    Option String × MicroState × Option BatchSettlement :=
  let pending := st.pendingInvoices.filter
    (fun p => decide (p.2.status = PaymentStatus.received))
  let pendingIds := pending.map (fun p => p.1)
  let totalAmount := (pending.map (fun p => p.2.amount)).sum
  if pendingIds.length = 0 then
    (some "No pending payments to settle", st, none)
  else
    let settlement : BatchSettlement :=
      { id := "batch_" ++ toString nowMs
        invoices := pendingIds
        totalAmount := totalAmount
        status := SettleStatus.settled
        scheduledAt := nowMs
        settledAt := some nowMs }
    let newInvoices := st.pendingInvoices.map (fun p =>
      if p.1 ∈ pendingIds then (p.1, { p.2 with status := PaymentStatus.settled })
      else p)
    (none,
     { pendingInvoices := newInvoices
       settlementHistory := st.settlementHistory ++ [settlement] },
     some settlement)

end Micropayments

export Micropayments (mapSet registerInvoice settlePending)

/-- `MAX_BATCH_SIZE` from `packages/sdk/src/constants.ts` — declared
there but never consulted by `settlePending`. -/
def MAX_BATCH_SIZE : Nat := 50

/-- A received invoice used to populate claim C7's counterexample
state. -/
def c7inv (i : Nat) : Invoice :=
  { id := toString i
    recipient := 7
    amount := 1
    memo := none
    expiresAt := 1000000
    status := PaymentStatus.received
    createdAt := 0 }

/-- Micropayments state holding 51 received invoices — one more than
`MAX_BATCH_SIZE`. -/
def c7state : MicroState :=
  { pendingInvoices := (List.range 51).map (fun i => (toString i, c7inv i))
    settlementHistory := [] }

/-- C7 (counterexample): `settlePending` on a state with 51 received
invoices succeeds and produces a single settlement listing all 51 —
`MAX_BATCH_SIZE = 50` is declared in constants.ts but never enforced,
so the claimed upper bound fails. -/
theorem settle_exceeds_max_batch :
    (settlePending c7state 0).1 = none ∧
    ((settlePending c7state 0).2.2.map (fun b => b.invoices.length))
      = some 51 ∧
    MAX_BATCH_SIZE < 51 := by decide

/-- Association-list lookup finds the stored pair when the keys are
unique: helper for claim C7. -/
theorem lookup_of_mem_of_nodup_keys :
    ∀ (l : List (String × Invoice)), (l.map Prod.fst).Nodup →
      ∀ (k : String) (v : Invoice), (k, v) ∈ l → l.lookup k = some v := by
  intro l
  induction l with
  | nil => intro _ k v hm; cases hm
  | cons hd tl ih =>
    intro hnd k v hm
    rw [List.map_cons, List.nodup_cons] at hnd
    cases hm with
    | head =>
      simp [List.lookup]
    | tail _ hm' =>
      have hk : k ≠ hd.1 := by
        intro hkeq
        exact hnd.1 (hkeq ▸ List.mem_map_of_mem Prod.fst hm')
      have hbeq : (k == hd.1) = false := beq_eq_false_iff_ne.mpr hk
      simp only [List.lookup, hbeq]
      exact ih hnd.2 k v hm'

/-- C7 (amended): every settlement produced by a successful
`settlePending` lists at least one invoice (the empty case throws
`'No pending payments to settle'` instead), each listed id refers to an
invoice that was in the `received` state in the pre-call state, and the
settlement's `totalAmount` equals the sum of the listed invoices'
amounts (looked up in the pre-call state; the keys of the invoice map
are unique, being a JS `Map`).  The upper bound `MAX_BATCH_SIZE` of the
original claim is NOT enforced — see the counterexample.  Second
conjunct: with no received invoice, `settlePending` throws and neither
the invoice map nor the history changes, and no settlement is
produced. -/
theorem settle_batch_invariants :
    (∀ (st : MicroState) (nowMs : Int) (b : BatchSettlement),
      (st.pendingInvoices.map Prod.fst).Nodup →
      (settlePending st nowMs).2.2 = some b →
      1 ≤ b.invoices.length ∧
      (∀ i ∈ b.invoices, ∃ inv, (i, inv) ∈ st.pendingInvoices ∧
        inv.status = PaymentStatus.received) ∧
      b.totalAmount = (b.invoices.map (fun i =>
        (((st.pendingInvoices.lookup i).map Invoice.amount).getD 0))).sum) ∧
    (∀ (st : MicroState) (nowMs : Int),
      (∀ p ∈ st.pendingInvoices, p.2.status ≠ PaymentStatus.received) →
      (settlePending st nowMs).1.isSome ∧
      (settlePending st nowMs).2.1 = st ∧
      (settlePending st nowMs).2.2 = none) := by
  constructor
  · intro st nowMs b hnd hb
    unfold Micropayments.settlePending at hb
    set pending := st.pendingInvoices.filter
      (fun p => decide (p.2.status = PaymentStatus.received)) with hpend
    by_cases hlen : (pending.map (fun p => p.1)).length = 0
    · rw [if_pos hlen] at hb
      cases hb
    · rw [if_neg hlen] at hb
      simp only [Option.some.injEq] at hb
      subst hb
      refine ⟨?_, ?_, ?_⟩
      · simp only [List.length_map] at hlen ⊢
        omega
      · intro i hi
        simp only [List.mem_map] at hi
        obtain ⟨p, hp, hpi⟩ := hi
        rw [hpend] at hp
        rw [List.mem_filter] at hp
        refine ⟨p.2, ?_, ?_⟩
        · rw [← hpi]
          exact hp.1
        · exact of_decide_eq_true hp.2
      · simp only
        rw [List.map_map]
        refine congrArg List.sum (List.map_congr_left ?_)
        intro p hp
        rw [hpend] at hp
        rw [List.mem_filter] at hp
        have hlk : st.pendingInvoices.lookup p.1 = some p.2 :=
          lookup_of_mem_of_nodup_keys st.pendingInvoices hnd p.1 p.2 hp.1
        simp [Function.comp, hlk]
  · intro st nowMs hnone
    unfold Micropayments.settlePending
    have hfil : st.pendingInvoices.filter
        (fun p => decide (p.2.status = PaymentStatus.received)) = [] := by
      rw [List.filter_eq_nil_iff]
      intro p hp
      simpa using hnone p hp
    rw [hfil]
    simp

/-- Two-invoice received state for claim C7's witness. -/
def c7wstate : MicroState :=
  { pendingInvoices :=
      [("x", { id := "x", recipient := 7, amount := 2, memo := none,
               expiresAt := 1000, status := PaymentStatus.received,
               createdAt := 0 }),
       ("y", { id := "y", recipient := 7, amount := 3, memo := none,
               expiresAt := 1000, status := PaymentStatus.received,
               createdAt := 0 })]
    settlementHistory := [] }

/-- `settlePending` on `c7wstate` does produce a settlement. -/
theorem c7w_produces_batch : ((settlePending c7wstate 5).2.2).isSome = true := by
  decide

/-- The settlement `settlePending` produces on `c7wstate` at `t = 5`. -/
def c7wbatch : BatchSettlement :=
  ((settlePending c7wstate 5).2.2).get c7w_produces_batch

/-- C7 (witness): `settle_batch_invariants` applied at the concrete
two-invoice state `c7wstate` — the produced batch lists at least one
invoice. -/
theorem settle_batch_invariants_witness : 1 ≤ c7wbatch.invoices.length :=
  (settle_batch_invariants.1 c7wstate 5 c7wbatch (by decide)
    (Option.some_get c7w_produces_batch).symm).1

/-! ## SDK entry point (class `AgentFund`) -/

/-- `MAX_MEMO_LENGTH` from `packages/sdk/src/constants.ts` — declared
there but never consulted by `AgentFund.createInvoice` (or anything
else under the SDK). -/
def MAX_MEMO_LENGTH : Nat := 256

/-- Unit of an expiry duration accepted by `AgentFund.parseExpiry`
(the `m`, `h` or `d` suffix of the `{number}{unit}` string). -/
inductive DurUnit where
  | minutes
  | hours
  | days
deriving DecidableEq

/-- A well-formed expiry duration.  `AgentFund.parseExpiry` regex-parses
the `{number}{unit}` string; the embedding takes the parsed form
directly (a malformed string throws before the invoice is built, which
no claim covers). -/
structure Duration where
  value : Nat
  unit : DurUnit
deriving DecidableEq

namespace AgentFundSdk

/-- Millisecond multiplier table of `AgentFund.parseExpiry`. -/
def durationMs (d : Duration) : Int :=
  (d.value : Int) * (match d.unit with
    | DurUnit.minutes => 60 * 1000
    | DurUnit.hours => 60 * 60 * 1000
    | DurUnit.days => 24 * 60 * 60 * 1000)

/-- `AgentFund.parseExpiry`: `now + value · multiplier(unit)`. -/
def parseExpiry (d : Duration) (nowMs : Int) : Int := nowMs + durationMs d

/-- `AgentFund.createInvoice` (part of the SDK entry-point class):
builds the invoice record with `expiresAt = parseExpiry(expiresIn ||
'1h')`, status `pending`, and registers it with
`Micropayments.registerInvoice` (`pendingInvoices.set`).  The method
performs NO validation — amount, memo length and expiry are accepted as
given.  `freshId` stands for `generateId()`, `recipientPk` for
`getPublicKey()`.  Returns (thrown message — always `none` —, state
after the call, the created invoice). -/
def createInvoice (st : MicroState) (recipientPk : Nat) (amount : ℚ)
    (memo : Option String) (expiresIn : Option Duration) (nowMs : Int)
    (freshId : String) : Option String × MicroState × Invoice :=
  let expiresAt := parseExpiry
    (expiresIn.getD { value := 1, unit := DurUnit.hours }) nowMs
  let inv : Invoice :=
    { id := freshId
      recipient := recipientPk
      amount := amount
      memo := memo
      expiresAt := expiresAt
      status := PaymentStatus.pending
      createdAt := nowMs }
  (none, registerInvoice st inv, inv)

end AgentFundSdk

export AgentFundSdk (durationMs parseExpiry createInvoice)

/-- Memo of 257 bytes (257 ASCII characters) for claim C8's
counterexample. -/
def c8memo : String := String.mk (List.replicate 257 'a')

/-- C8 (counterexample): creating an invoice whose memo is 257 bytes —
one past `MAX_MEMO_LENGTH = 256` — does not fail: no error is thrown,
the invoice carries the over-long memo, and it is registered in the
tracking map. -/
theorem long_memo_invoice_created :
    MAX_MEMO_LENGTH < c8memo.utf8ByteSize ∧
    (createInvoice { pendingInvoices := [], settlementHistory := [] }
        7 5 (some c8memo) none 0 "inv1").1 = none ∧
    (createInvoice { pendingInvoices := [], settlementHistory := [] }
        7 5 (some c8memo) none 0 "inv1").2.2.memo = some c8memo ∧
    ("inv1", (createInvoice { pendingInvoices := [], settlementHistory := [] }
        7 5 (some c8memo) none 0 "inv1").2.2)
      ∈ (createInvoice { pendingInvoices := [], settlementHistory := [] }
        7 5 (some c8memo) none 0 "inv1").2.1.pendingInvoices := by decide

/-- The fresh key/invoice pair is always present after a `Map.set`:
helper for claim C8. -/
theorem mem_mapSet (m : List (String × Invoice)) (k : String) (v : Invoice) :
    (k, v) ∈ mapSet m k v := by
  unfold Micropayments.mapSet
  split_ifs with h
  · rw [List.any_eq_true] at h
    obtain ⟨p, hp, hpk⟩ := h
    rw [List.mem_map]
    refine ⟨p, hp, ?_⟩
    rw [if_pos (of_decide_eq_true hpk)]
  · exact List.mem_append_right m (List.mem_singleton.mpr rfl)

/-- C8 (amended): `AgentFund.createInvoice` enforces no memo-length
limit.  For every state and every memo longer than
`MAX_MEMO_LENGTH = 256` bytes, the call succeeds (throws nothing),
returns an invoice that carries the over-long memo, and registers that
invoice for tracking under its fresh id.  `MAX_MEMO_LENGTH` is declared
in constants.ts but unused. -/
theorem create_invoice_no_memo_check :
    ∀ (st : MicroState) (r : Nat) (a : ℚ) (memo : String)
      (d : Option Duration) (nowMs : Int) (freshId : String),
      MAX_MEMO_LENGTH < memo.utf8ByteSize →
      (createInvoice st r a (some memo) d nowMs freshId).1 = none ∧
      (createInvoice st r a (some memo) d nowMs freshId).2.2.memo = some memo ∧
      (freshId, (createInvoice st r a (some memo) d nowMs freshId).2.2)
        ∈ (createInvoice st r a (some memo) d nowMs freshId).2.1.pendingInvoices := by
  intro st r a memo d nowMs freshId _
  refine ⟨rfl, rfl, ?_⟩
  unfold AgentFundSdk.createInvoice Micropayments.registerInvoice
  exact mem_mapSet st.pendingInvoices freshId _

/-- Memo of 300 bytes for claim C8's witness. -/
def c8wmemo : String := String.mk (List.replicate 300 'b')

/-- C8 (witness): `create_invoice_no_memo_check` applied to a 300-byte
memo on a one-invoice state. -/
theorem create_invoice_no_memo_check_witness :
    (createInvoice c7wstate 9 1 (some c8wmemo)
        (some { value := 5, unit := DurUnit.minutes }) 42 "w").1 = none ∧
    (createInvoice c7wstate 9 1 (some c8wmemo)
        (some { value := 5, unit := DurUnit.minutes }) 42 "w").2.2.memo
      = some c8wmemo ∧
    ("w", (createInvoice c7wstate 9 1 (some c8wmemo)
        (some { value := 5, unit := DurUnit.minutes }) 42 "w").2.2)
      ∈ (createInvoice c7wstate 9 1 (some c8wmemo)
        (some { value := 5, unit := DurUnit.minutes }) 42 "w").2.1.pendingInvoices :=
  create_invoice_no_memo_check c7wstate 9 1 c8wmemo
    (some { value := 5, unit := DurUnit.minutes }) 42 "w" (by decide)

/-! ## Error handling across the entry points (claim C5) -/

/-- Stream of claim C5's witness scenario. -/
def c5stream : PaymentStream := createStream 1 2 100 10 0 0

/-- C5: every throwing call leaves the addressed record unchanged — in
each of the ten embedded entry points (`withdraw`, `pauseStream`,
`resumeStream`, `cancelStream` on streams; `fund`, `release`, `refund`,
`dispute`, `resolveDispute` on escrows; `settlePending` on the
micropayments state), whenever the call throws, the record/state it
returns is exactly the record/state it was given: every precondition
check precedes every mutation.  (A `'not found'` throw from the map
lookup touches no record at all.) -/
theorem errors_leave_state_unchanged :
    (∀ (s : PaymentStream) (c : Nat) (t : Int) (a : Option Int),
      ((withdraw s c t a).1).isSome → (withdraw s c t a).2.1 = s) ∧
    (∀ (s : PaymentStream) (c : Nat) (t : Int),
      ((pauseStream s c t).1).isSome → (pauseStream s c t).2 = s) ∧
    (∀ (s : PaymentStream) (c : Nat) (t : Int),
      ((resumeStream s c t).1).isSome → (resumeStream s c t).2 = s) ∧
    (∀ (s : PaymentStream) (c : Nat) (t : Int),
      ((cancelStream s c t).1).isSome → (cancelStream s c t).2.1 = s) ∧
    (∀ (e : Escrow), ((fund e).1).isSome → (fund e).2 = e) ∧
    (∀ (e : Escrow) (c : Nat),
      ((release e c).1).isSome → (release e c).2 = e) ∧
    (∀ (e : Escrow) (c : Nat),
      ((refund e c).1).isSome → (refund e c).2 = e) ∧
    (∀ (e : Escrow) (c : Nat),
      ((dispute e c).1).isSome → (dispute e c).2 = e) ∧
    (∀ (e : Escrow) (c : Nat) (r : Resolution) (q : Option ℚ),
      ((resolveDispute e c r q).1).isSome → (resolveDispute e c r q).2 = e) ∧
    (∀ (st : MicroState) (t : Int),
      ((settlePending st t).1).isSome → (settlePending st t).2.1 = st) := by
  refine ⟨?_, ?_, ?_, ?_, ?_, ?_, ?_, ?_, ?_, ?_⟩
  · intro s c t a
    rcases a with _ | x <;> dsimp only [StreamingPayments.withdraw] <;>
      split_ifs <;> simp
  · intro s c t
    unfold StreamingPayments.pauseStream
    split_ifs <;> simp
  · intro s c t
    unfold StreamingPayments.resumeStream
    split_ifs <;> simp
  · intro s c t
    unfold StreamingPayments.cancelStream
    split_ifs <;> simp
  · intro e
    unfold EscrowManager.fund
    split_ifs <;> simp
  · intro e c
    unfold EscrowManager.release
    split_ifs <;> simp
  · intro e c
    unfold EscrowManager.refund
    split_ifs <;> simp
  · intro e c
    unfold EscrowManager.dispute
    split_ifs <;> simp
  · intro e c r q
    unfold EscrowManager.resolveDispute
    split_ifs <;> simp
  · intro st t
    dsimp only [Micropayments.settlePending]
    split_ifs <;> simp

/-- C5 (witness): the no-mutation-on-throw property applied at three
concrete failing calls — an unauthorized `pauseStream` (caller 999 is
not the sender of `c5stream`), a `fund` on the already-disputed
`c4escrow`, and a `settlePending` on a state with no received
invoice. -/
theorem errors_leave_state_unchanged_witness :
    (pauseStream c5stream 999 0).2 = c5stream ∧
    (fund c4escrow).2 = c4escrow ∧
    (settlePending { pendingInvoices := [], settlementHistory := [] } 0).2.1
      = { pendingInvoices := [], settlementHistory := [] } := by
  obtain ⟨h1, h2, h3, h4, h5, h6, h7, h8, h9, h10⟩ := errors_leave_state_unchanged
  exact ⟨h2 c5stream 999 0 (by decide), h5 c4escrow (by decide),
         h10 { pendingInvoices := [], settlementHistory := [] } 0 (by decide)⟩

end AFP
